import Mathlib

/-!
# Verification of the GNews MCP server handlers

Shallow embedding of `src/gnews_mcp_server/handlers.py` and proofs of the
spec claims about it.

Conventions of the embedding:
* Python `None` becomes `Option.none`; JSON values become the `Json` inductive.
* Python exceptions become the `Err` inductive, one constructor per raise
  site / uncaught-exception kind; functions that can raise return `Except Err _`.
* The HTTP transport (`httpx`) is a parameter `net`: given the final query
  parameters it returns either a response (status, raw text, parse result of
  `response.json()`) or a request error.  Calendar/string handling is
  restricted to ASCII, matching all inputs the claims exercise (Python's
  `str.isalpha`, `\d` and `.lower()` are Unicode-aware; the difference is
  immaterial here).
-/

/-- JSON values as parsed by `response.json()`.  Numbers are modelled as
integers (no claim involves fractional numbers). -/
inductive Json where
  | null
  | b (v : Bool)
  | num (n : Int)
  | str (s : String)
  | arr (elems : List Json)
  | obj (fields : List (String × Json))
deriving Repr, BEq

/-- Error kinds, one per raise site of `handlers.py`:
* `validation msg`  — the inline `raise ValueError(...)` parameter checks;
* `invalidDate s`   — `validate_and_convert_date`'s
  `ValueError(f"Invalid date format: {date_str}. ...")`, carrying the input;
* `missingCredential` — `ValueError("GNews API key not set. ...")`;
* `upstream msg`    — `ValueError(f"GNews API error: {error_msg}")`;
* `transport msg`   — `ValueError(f"Request error: {e}")` for `httpx.RequestError`;
* `unexpected msg`  — `ValueError(f"Unexpected error: {e}")`;
* `crash msg`       — an exception (TypeError/AttributeError) escaping uncaught
  from the response post-processing. -/
inductive Err where
  | validation (msg : String)
  | invalidDate (input : String)
  | missingCredential
  | upstream (msg : String)
  | transport (msg : String)
  | unexpected (msg : String)
  | crash (msg : String)
deriving Repr, DecidableEq

/-! ## Date Normalizer (`validate_and_convert_date`, handlers.py lines 21-42)

`datetime.strptime(date_str, "%Y-%m-%d")` compiles (per CPython's
`_strptime.py`) to the anchored regex
`(?P<Y>\d\d\d\d)\-(?P<m>1[0-2]|0[1-9]|[1-9])\-(?P<d>3[01]|[12]\d|0[1-9]|[1-9])`
with the whole input consumed ("unconverted data remains" otherwise), then
builds `datetime(Y, m, d)`, which additionally requires `1 <= Y` and
`d <= days in month (Y, m)`.  Note the month/day groups accept one OR two
digit forms.  Because each token is followed by a non-digit (`-` or end of
input), the regex backtracking collapses to: if the next two characters are
both digits the two-digit alternatives must match, else the one-digit
alternative `[1-9]` must. -/

/-- Numeric value of a digit character. -/
def digitVal (c : Char) : Nat := c.toNat - 48

/-- The character for a digit value (`0 ≤ n ≤ 9`). -/
def digitChar (n : Nat) : Char := Char.ofNat (48 + n)

/-- Match `(?P<Y>\d\d\d\d)`: exactly four digits. -/
def year4 : List Char → Option (Nat × List Char)
  | a :: b :: c :: d :: rest =>
    if a.isDigit && b.isDigit && c.isDigit && d.isDigit then
      some (1000 * digitVal a + 100 * digitVal b + 10 * digitVal c + digitVal d, rest)
    else none
  | _ => none

/-- Two-digit month alternatives `1[0-2]|0[1-9]`. -/
def month2 (c1 c2 : Char) : Option Nat :=
  if c1 == '1' && '0' ≤ c2 && c2 ≤ '2' then some (10 + digitVal c2)
  else if c1 == '0' && '1' ≤ c2 && c2 ≤ '9' then some (digitVal c2)
  else none

/-- Two-digit day alternatives `3[01]|[12]\d|0[1-9]`. -/
def day2 (c1 c2 : Char) : Option Nat :=
  if c1 == '3' && '0' ≤ c2 && c2 ≤ '1' then some (30 + digitVal c2)
  else if (c1 == '1' || c1 == '2') && c2.isDigit then some (10 * digitVal c1 + digitVal c2)
  else if c1 == '0' && '1' ≤ c2 && c2 ≤ '9' then some (digitVal c2)
  else none

/-- Match `(?P<m>1[0-2]|0[1-9]|[1-9])` followed by a non-digit or the end. -/
def monthTok : List Char → Option (Nat × List Char)
  | c1 :: c2 :: rest =>
    if c2.isDigit then (month2 c1 c2).map (fun m => (m, rest))
    else if '1' ≤ c1 && c1 ≤ '9' then some (digitVal c1, c2 :: rest)
    else none
  | [c1] => if '1' ≤ c1 && c1 ≤ '9' then some (digitVal c1, []) else none
  | [] => none

/-- Match `(?P<d>3[01]|[12]\d|0[1-9]|[1-9])` followed by a non-digit or the end. -/
def dayTok : List Char → Option (Nat × List Char)
  | c1 :: c2 :: rest =>
    if c2.isDigit then (day2 c1 c2).map (fun d => (d, rest))
    else if '1' ≤ c1 && c1 ≤ '9' then some (digitVal c1, c2 :: rest)
    else none
  | [c1] => if '1' ≤ c1 && c1 ≤ '9' then some (digitVal c1, []) else none
  | [] => none

/-- Match the literal `-` of the format string. -/
def expectDash : List Char → Option (List Char)
  | c :: rest => if c = '-' then some rest else none
  | [] => none

/-- `datetime.strptime(s, "%Y-%m-%d")` up to (but not including) the
day-of-month range check done by the `datetime` constructor: year, month and
day fields extracted, or `none` on a format mismatch (including trailing
characters: "unconverted data remains"). -/
def strptimeYMD (s : String) : Option (Nat × Nat × Nat) := do
  let (y, r1) ← year4 s.data
  let r1' ← expectDash r1
  let (m, r2) ← monthTok r1'
  let r2' ← expectDash r2
  let (d, r3) ← dayTok r2'
  if r3 = [] then some (y, m, d) else none

/-- Leap year rule used by `datetime`. -/
def isLeapYear (y : Nat) : Bool := y % 4 == 0 && (y % 100 != 0 || y % 400 == 0)

/-- Days in a month, as enforced by the `datetime` constructor. -/
def daysInMonth (y m : Nat) : Nat :=
  if m == 2 then (if isLeapYear y then 29 else 28)
  else if m == 4 || m == 6 || m == 9 || m == 11 then 30 else 31

/-- Two-digit zero-padded rendering (strftime `%m` / `%d`), for `n < 100`. -/
def pad2 (n : Nat) : String := String.mk [digitChar (n / 10 % 10), digitChar (n % 10)]

/-- Four-digit zero-padded rendering (strftime `%Y`), for `n < 10000`.
(Zero-padding of `%Y` below 1000 is platform dependent in CPython; no claim
depends on years below 1000.) -/
def pad4 (n : Nat) : String :=
  String.mk [digitChar (n / 1000 % 10), digitChar (n / 100 % 10),
             digitChar (n / 10 % 10), digitChar (n % 10)]

/-- `validate_and_convert_date` (handlers.py lines 21-42): parse the input
with `strptime("%Y-%m-%d")`, validate it as a calendar date
(`datetime` requires `MINYEAR = 1 ≤ year` and a day within the month), and
render `strftime("%Y-%m-%dT00:00:00.000Z")`; any failure raises the
`Invalid date format` ValueError carrying the input. -/
def validate_and_convert_date (date_str : String) : Except Err String :=
  match strptimeYMD date_str with
  | some (y, m, d) =>
    if 1 ≤ y ∧ d ≤ daysInMonth y m then
      .ok (pad4 y ++ "-" ++ pad2 m ++ "-" ++ pad2 d ++ "T00:00:00.000Z")
    else .error (.invalidDate date_str)
  | none => .error (.invalidDate date_str)

example : validate_and_convert_date "2024-01-15" = .ok "2024-01-15T00:00:00.000Z" := by rfl
example : validate_and_convert_date "2024-1-5" = .ok "2024-01-05T00:00:00.000Z" := by rfl
example : validate_and_convert_date "2024-13-01" = .error (.invalidDate "2024-13-01") := by rfl
example : validate_and_convert_date "2024-02-30" = .error (.invalidDate "2024-02-30") := by rfl
example : validate_and_convert_date "2024-02-29" = .ok "2024-02-29T00:00:00.000Z" := by rfl
example : validate_and_convert_date "2023-02-29" = .error (.invalidDate "2023-02-29") := by rfl
example : validate_and_convert_date "2024/01/15" = .error (.invalidDate "2024/01/15") := by rfl
example : validate_and_convert_date "2024-01-15x" = .error (.invalidDate "2024-01-15x") := by rfl
example : validate_and_convert_date "0000-01-15" = .error (.invalidDate "0000-01-15") := by rfl
example : validate_and_convert_date "" = .error (.invalidDate "") := by rfl

/-! ## Python value helpers -/

/-- Python truthiness of a JSON value (`bool(x)`). -/
def pyTruthy : Json → Bool
  | .null => false
  | .b v => v
  | .num n => n != 0
  | .str s => s ≠ ""
  | .arr l => !l.isEmpty
  | .obj l => !l.isEmpty

/-- Python truthiness of an optional string (`None` and `""` are falsy). -/
def strTruthy : Option String → Bool
  | none => false
  | some s => s ≠ ""

mutual

/-- `repr(x)` for the JSON values we model (string escaping omitted; only
used when stringifying containers, which no handler path the claims exercise
reaches). -/
def pyRepr : Json → String
  | .null => "None"
  | .b true => "True"
  | .b false => "False"
  | .num n => toString n
  | .str s => "'" ++ s ++ "'"
  | .arr l => "[" ++ String.intercalate ", " (pyReprList l) ++ "]"
  | .obj l => "\x7b" ++ String.intercalate ", " (pyReprFields l) ++ "\x7d"

def pyReprList : List Json → List String
  | [] => []
  | x :: xs => pyRepr x :: pyReprList xs

def pyReprFields : List (String × Json) → List String
  | [] => []
  | (k, v) :: xs => ("'" ++ k ++ "': " ++ pyRepr v) :: pyReprFields xs

end

/-- `str(x)` (f-string interpolation): identity on strings, `repr` otherwise. -/
def pyStr : Json → String
  | .str s => s
  | v => pyRepr v

/-- Key lookup in a JSON object's field list. -/
def getField (kvs : List (String × Json)) (k : String) : Option Json :=
  (kvs.find? (fun p => p.1 == k)).map (fun p => p.2)

/-- Python `dict.get(k)`: the value under `k`, else `None`. -/
def getD (kvs : List (String × Json)) (k : String) : Json :=
  (getField kvs k).getD .null

/-- Python `"errors" in data`: key membership for dicts, element membership
for lists, substring test for strings, `TypeError` otherwise. -/
def pyInErrors : Json → Except String Bool
  | .obj kvs => .ok (kvs.any (fun p => p.1 == "errors"))
  | .arr l => .ok (l.any (fun v => v == Json.str "errors"))
  | .str s => .ok (("errors".isPrefixOf s) || (s.splitOn "errors").length > 1)
  | _ => .error "TypeError: argument of type is not iterable"

/-- Python `data["errors"]`: dict lookup (`KeyError` if absent), `TypeError`
on any non-dict. -/
def pyIndexErrors : Json → Except String Json
  | .obj kvs =>
    match getField kvs "errors" with
    | some v => .ok v
    | none => .error "KeyError: errors"
  | _ => .error "TypeError: indices must be integers"

/-- Python `x[0]`: first element of a list (`IndexError` if empty), first
character of a string, `TypeError` otherwise. -/
def pyIndex0 : Json → Except String Json
  | .arr (e :: _) => .ok e
  | .arr [] => .error "IndexError: list index out of range"
  | .str s =>
    match s.data with
    | c :: _ => .ok (.str (String.mk [c]))
    | [] => .error "IndexError: string index out of range"
  | _ => .error "TypeError: not subscriptable"

/-! ## Request Gateway (`make_gnews_request`, handlers.py lines 45-85) -/

/-- One HTTP exchange as seen through `httpx`: the status code, the raw
`response.text`, and the outcome of `response.json()` (`none` when the body
does not parse as JSON — the handler turns that exception into `data = None`). -/
structure HttpResponse where
  status : Nat
  body : String
  json : Option Json
deriving Repr

/-- Outcome of `client.get`: a response, or an `httpx.RequestError` with its
message. -/
inductive TransportResult where
  | response (r : HttpResponse)
  | requestError (msg : String)
deriving Repr

/-- Query-parameter values are strings or numbers (`max` is the int 10). -/
inductive PVal where
  | s (v : String)
  | n (v : Int)
deriving Repr, DecidableEq

/-- Lookup in an ordered string-keyed mapping (a Python dict's items). -/
def assocGet (l : List (String × PVal)) (k : String) : Option PVal :=
  (l.find? (fun p => p.1 == k)).map (fun p => p.2)

/-- Python `d[k] = v` on an ordered dict: overwrite in place if the key is
present, else append. -/
def assocSet (l : List (String × PVal)) (k : String) (v : PVal) : List (String × PVal) :=
  if l.any (fun p => p.1 == k) then l.map (fun p => if p.1 == k then (k, v) else p)
  else l ++ [(k, v)]

/-- The error raised for a non-200 status (handlers.py lines 69-76):
`error_msg` is the first entry of the body's `errors` list when
`data` is truthy and has an `errors` key (`"Unknown API error"` if that list
is falsy), else `response.text or f"HTTP {status}"`; the raise is
`ValueError(f"GNews API error: {error_msg}")`, re-raised unchanged by the
outer handler.  A TypeError from the dynamic operations is caught by
`except Exception` and re-raised as `Unexpected error`. -/
def statusError (r : HttpResponse) : Err :=
  let textMsg := if r.body ≠ "" then r.body else "HTTP " ++ toString r.status
  match r.json with
  | some d =>
    if pyTruthy d then
      match pyInErrors d with
      | .error m => .unexpected m
      | .ok true =>
        match pyIndexErrors d with
        | .error m => .unexpected m
        | .ok v =>
          if pyTruthy v then
            match pyIndex0 v with
            | .ok e => .upstream (pyStr e)
            | .error m => .unexpected m
          else .upstream "Unknown API error"
      | .ok false => .upstream textMsg
    else .upstream textMsg
  | none => .upstream textMsg

/-- `make_gnews_request` (handlers.py lines 45-85).  `gnewsKey` is the
`GNEWS_KEY` module global (`os.getenv` result: `none` when unset; the guard
`if not GNEWS_KEY` also fires on an empty string).  The returned flag records
whether the transport was invoked (`client.get` reached).  On success the
parsed body `data` is returned as-is — `None` when a 200 body fails to parse. -/
def make_gnews_request (gnewsKey : Option String) (_endpoint : String)
    (params : List (String × PVal)) (net : List (String × PVal) → TransportResult) :
    Except Err (Option Json) × Bool :=
  if strTruthy gnewsKey = false then (.error .missingCredential, false)
  else
    let k := gnewsKey.getD ""
    let full := assocSet params "apikey" (.s k)
    match net full with
    | .requestError e => (.error (.transport e), true)
    | .response r =>
      if r.status ≠ 200 then (.error (statusError r), true)
      else (.ok r.json, true)


/-! ## Search Operation (`search_news`, handlers.py lines 88-179) -/

/-- Python's ASCII whitespace (`str.strip()` with no argument). -/
def isSpaceChar (c : Char) : Bool :=
  c == ' ' || c == '\t' || c == '\n' || c == '\r' || c == '\x0b' || c == '\x0c'

/-- Python `str.strip()`: remove leading and trailing whitespace. -/
def pyStrip (s : String) : String :=
  String.mk (((s.data.dropWhile isSpaceChar).reverse.dropWhile isSpaceChar).reverse)

/-- Python `str.lower()` restricted to ASCII letters. -/
def asciiLower (c : Char) : Char :=
  if 'A' ≤ c && c ≤ 'Z' then Char.ofNat (c.toNat + 32) else c

/-- Python `str.lower()` on a string. -/
def pyLower (s : String) : String := String.mk (s.data.map asciiLower)

/-- `len(s) == 2 and s.isalpha()` restricted to ASCII letters. -/
def isTwoAlpha (s : String) : Bool := s.length == 2 && s.data.all Char.isAlpha

/-- `kwargs.get(k)` for the keyword-argument dict (values the claims exercise
are all strings). -/
def kwGet (kwargs : List (String × String)) (k : String) : Option String :=
  (kwargs.find? (fun p => p.1 == k)).map (fun p => p.2)

/-- `if date: api_date = validate_and_convert_date(date)` — conversion only
runs when the optional string is truthy (handlers.py lines 120-125). -/
def optConvertDate (date : Option String) : Except Err (Option String) :=
  if strTruthy date then (validate_and_convert_date (date.getD "")).map some
  else .ok none

/-- Validation and parameter assembly of `search_news` (handlers.py lines
106-154), in source order: kwargs extraction with defaults; empty-query
check; date conversion; sortby check (note the kwargs key is `"sort_by"`,
line 113, while the docstring names the argument `sortby`); language check;
country check; then the params dict `q, lang, max, in, sortby` plus
conditional `country, from, to`. -/
def search_news_build (query : String) (language : String) (country : Option String)
    (kwargs : List (String × String)) : Except Err (List (String × PVal)) :=
  let in_attr := (kwGet kwargs "in").getD "title,description"
  let start_date := kwGet kwargs "start_date"
  let end_date := kwGet kwargs "end_date"
  let sort_by := (kwGet kwargs "sort_by").getD "publishedAt"
  if pyStrip query = "" then
    .error (.validation "Search query 'query' is required and cannot be empty")
  else match optConvertDate start_date with
  | .error e => .error e
  | .ok api_start_date =>
    match optConvertDate end_date with
    | .error e => .error e
    | .ok api_end_date =>
    if sort_by = "" ∨ (sort_by ≠ "publishedAt" ∧ sort_by ≠ "relevance") then
      .error (.validation "'sortby' must be 'publishedAt' or 'relevance'")
    else if !isTwoAlpha language then
      .error (.validation "'language' must be a 2-letter language code")
    else if strTruthy country && !isTwoAlpha (country.getD "") then
      .error (.validation "'country' must be a 2-letter country code")
    else
      let base : List (String × PVal) :=
        [("q", .s (pyStrip query)), ("lang", .s (pyLower language)),
         ("max", .n 10), ("in", .s in_attr), ("sortby", .s sort_by)]
      let withCountry := if strTruthy country
        then base ++ [("country", .s (pyLower (country.getD "")))] else base
      let withFrom := match api_start_date with
        | some f => withCountry ++ [("from", .s f)]
        | none => withCountry
      let withTo := match api_end_date with
        | some t => withFrom ++ [("to", .s t)]
        | none => withFrom
      .ok withTo

/-- The normalized result envelope `{"total_articles": ..., "articles": [...]}`. -/
structure Envelope where
  total_articles : Json
  articles : List Json
deriving Repr

/-- `article.get("source", {})` then field access: absent key defaults to an
empty dict; a present non-dict value (e.g. `null`) makes the subsequent
`.get("name")` raise AttributeError. -/
def normalizeSourceObj (a : List (String × Json)) : Except Err (List (String × Json)) :=
  match getField a "source" with
  | none => .ok []
  | some (.obj s) => .ok s
  | some _ => .error (.crash "AttributeError: object has no attribute get")

/-- One article of `search_news`'s normalization loop (handlers.py lines
161-174): every field via `article.get(...)` (absent becomes `None`), with
the nested `source` dict rebuilt from `name`/`url`. -/
def search_normalize_article (j : Json) : Except Err Json :=
  match j with
  | .obj a =>
    (normalizeSourceObj a).map fun s =>
      .obj [("title", getD a "title"), ("description", getD a "description"),
            ("content", getD a "content"), ("url", getD a "url"),
            ("image", getD a "image"), ("publishedAt", getD a "publishedAt"),
            ("source", .obj [("name", getD s "name"), ("url", getD s "url")])]
  | _ => .error (.crash "AttributeError: object has no attribute get")

/-- One article of `get_top_headlines`'s normalization loop (handlers.py
lines 261-275): as in search, plus `"language": article.get("lang")`. -/
def headlines_normalize_article (j : Json) : Except Err Json :=
  match j with
  | .obj a =>
    (normalizeSourceObj a).map fun s =>
      .obj [("title", getD a "title"), ("description", getD a "description"),
            ("content", getD a "content"), ("url", getD a "url"),
            ("image", getD a "image"), ("publishedAt", getD a "publishedAt"),
            ("language", getD a "lang"),
            ("source", .obj [("name", getD s "name"), ("url", getD s "url")])]
  | _ => .error (.crash "AttributeError: object has no attribute get")

/-- `for article in x:` — iteration over the value under `"articles"`:
element list for a list, keys for a dict, characters for a string,
TypeError otherwise. -/
def pyIterate : Json → Except Err (List Json)
  | .arr l => .ok l
  | .obj kvs => .ok (kvs.map (fun p => .str p.1))
  | .str s => .ok (s.data.map (fun c => Json.str (String.mk [c])))
  | _ => .error (.crash "TypeError: object is not iterable")

/-- Response post-processing shared shape (handlers.py lines 159-179 and
259-280): `response.get("articles", [])` (AttributeError when the body is
not a dict, in particular when a 200 body failed to parse and `data` is
`None`), normalize each article, and take `total_articles` from
`response.get("totalArticles", len(normalized_articles))`. -/
def post_process (normalize : Json → Except Err Json) (data : Option Json) :
    Except Err Envelope :=
  match data with
  | some (.obj rkvs) =>
    match pyIterate ((getField rkvs "articles").getD (.arr [])) with
    | .error e => .error e
    | .ok raw =>
      match raw.mapM normalize with
      | .error e => .error e
      | .ok arts => .ok ⟨(getField rkvs "totalArticles").getD (.num arts.length), arts⟩
  | _ => .error (.crash "AttributeError: object has no attribute get")

/-- `search_news` end to end: build the parameters, call the gateway on
endpoint `"search"`, post-process.  The boolean records whether the network
transport was reached. -/
def search_news (query : String) (language : String) (country : Option String)
    (kwargs : List (String × String)) (gnewsKey : Option String)
    (net : List (String × PVal) → TransportResult) : Except Err Envelope × Bool :=
  match search_news_build query language country kwargs with
  | .error e => (.error e, false)
  | .ok params =>
    match make_gnews_request gnewsKey "search" params net with
    | (.error e, called) => (.error e, called)
    | (.ok data, called) => (post_process search_normalize_article data, called)

/-! ## Headlines Operation (`get_top_headlines`, handlers.py lines 182-280) -/

/-- The fixed category list (handlers.py lines 209-219). -/
def valid_categories : List String :=
  ["general", "world", "nation", "business", "technology",
   "entertainment", "sports", "science", "health"]

/-- Validation and parameter assembly of `get_top_headlines` (handlers.py
lines 205-254), in source order: category membership; date conversion;
language check; country check; then the params dict `category, lang, max`
plus conditional `country, from, to, q`.  The trailing `**kwargs` of the
source signature is never read. -/
def get_top_headlines_build (category : String) (language : String)
    (country : Option String) (start_date : Option String) (end_date : Option String)
    (query : Option String) (_kwargs : List (String × String)) :
    Except Err (List (String × PVal)) :=
  if category ∉ valid_categories then
    .error (.validation ("'category' must be one of: " ++
      String.intercalate ", " valid_categories))
  else match optConvertDate start_date with
  | .error e => .error e
  | .ok api_start_date =>
    match optConvertDate end_date with
    | .error e => .error e
    | .ok api_end_date =>
    if !isTwoAlpha language then
      .error (.validation "'language' must be a 2-letter language code")
    else if strTruthy country && !isTwoAlpha (country.getD "") then
      .error (.validation "'country' must be a 2-letter country code")
    else
      let base : List (String × PVal) :=
        [("category", .s category), ("lang", .s (pyLower language)), ("max", .n 10)]
      let withCountry := if strTruthy country
        then base ++ [("country", .s (pyLower (country.getD "")))] else base
      let withFrom := match api_start_date with
        | some f => withCountry ++ [("from", .s f)]
        | none => withCountry
      let withTo := match api_end_date with
        | some t => withFrom ++ [("to", .s t)]
        | none => withFrom
      let withQ := if strTruthy query
        then withTo ++ [("q", .s (pyStrip (query.getD "")))] else withTo
      .ok withQ

/-- `get_top_headlines` end to end. -/
def get_top_headlines (category : String) (language : String)
    (country : Option String) (start_date : Option String) (end_date : Option String)
    (query : Option String) (kwargs : List (String × String)) (gnewsKey : Option String)
    (net : List (String × PVal) → TransportResult) : Except Err Envelope × Bool :=
  match get_top_headlines_build category language country start_date end_date query kwargs with
  | .error e => (.error e, false)
  | .ok params =>
    match make_gnews_request gnewsKey "top-headlines" params net with
    | (.error e, called) => (.error e, called)
    | (.ok data, called) => (post_process headlines_normalize_article data, called)

/-! ## Spec-side definitions

These follow the wording of the spec (and, for the amended C1, the wording
forced by the counterexample); they are compared against the source-derived
definitions above. -/

/-- A one-character digit string. -/
def digitStr1 (n : Nat) : String := String.mk [digitChar n]

/-- The ways a month or day number may be written per the amended date
grammar: one digit (no leading zero) or two digits. -/
def specRenderings (n : Nat) : List String :=
  if n < 10 then [digitStr1 n, pad2 n] else [pad2 n]

/-- Spec-side date grammar (amended C1): `s` denotes the calendar date
`(y, m, d)` written as 4-digit year `-` month `-` day with the month and day
in one- or two-digit form, the date being a valid proleptic-Gregorian
calendar date with `1 ≤ y ≤ 9999`. -/
def specDateComponents (s : String) (y m d : Nat) : Prop :=
  1 ≤ y ∧ y ≤ 9999 ∧ 1 ≤ m ∧ m ≤ 12 ∧ 1 ≤ d ∧ d ≤ daysInMonth y m ∧
  ∃ ms ∈ specRenderings m, ∃ ds ∈ specRenderings d,
    s = pad4 y ++ "-" ++ ms ++ "-" ++ ds

/-- Spec-side predicate for the original C1: `s` is a valid calendar date
written in exactly the 10-character zero-padded `YYYY-MM-DD` form. -/
def isExactYMD (s : String) : Bool :=
  match s.data with
  | [y1, y2, y3, y4, '-', m1, m2, '-', d1, d2] =>
    [y1, y2, y3, y4, m1, m2, d1, d2].all Char.isDigit &&
    (let y := 1000 * digitVal y1 + 100 * digitVal y2 + 10 * digitVal y3 + digitVal y4
     let m := 10 * digitVal m1 + digitVal m2
     let d := 10 * digitVal d1 + digitVal d2
     1 ≤ y && 1 ≤ m && m ≤ 12 && 1 ≤ d && d ≤ daysInMonth y m)
  | _ => false

/-! ## Character and digit lemmas -/

lemma char_le_iff {c d : Char} : (c ≤ d) ↔ c.toNat ≤ d.toNat := Iff.rfl

lemma char_eq_of_toNat {c d : Char} (h : c.toNat = d.toNat) : c = d :=
  Char.ext (UInt32.ext h)

lemma isDigit_iff {c : Char} : c.isDigit = true ↔ 48 ≤ c.toNat ∧ c.toNat ≤ 57 := by
  simp only [Char.isDigit, Bool.and_eq_true, decide_eq_true_eq]
  exact Iff.rfl

lemma toNat_digitChar {v : Nat} (h : v < 10) : (digitChar v).toNat = 48 + v := by
  have hv : (48 + v).isValidChar := Or.inl (by omega)
  rw [digitChar, Char.ofNat, dif_pos hv]
  rfl

lemma digitChar_isDigit {v : Nat} (h : v < 10) : (digitChar v).isDigit = true := by
  rw [isDigit_iff, toNat_digitChar h]
  omega

lemma digitVal_digitChar {v : Nat} (h : v < 10) : digitVal (digitChar v) = v := by
  rw [digitVal, toNat_digitChar h]
  omega

lemma digitVal_lt_ten {c : Char} (h : c.isDigit = true) : digitVal c < 10 := by
  rw [isDigit_iff] at h
  rw [digitVal]
  omega

lemma digitChar_digitVal {c : Char} (h : c.isDigit = true) : digitChar (digitVal c) = c := by
  rw [isDigit_iff] at h
  rw [digitChar, digitVal]
  have : 48 + (c.toNat - 48) = c.toNat := by omega
  rw [this, Char.ofNat_toNat]

/-! ## Date grammar soundness: rendered dates parse back -/

lemma daysInMonth_le (y m : Nat) : daysInMonth y m ≤ 31 := by
  rw [daysInMonth]
  split_ifs <;> omega

lemma year4_pad4 {y : Nat} (h : y ≤ 9999) (rest : List Char) :
    year4 ((pad4 y).data ++ rest) = some (y, rest) := by
  have h0 : y / 1000 % 10 < 10 := Nat.mod_lt _ (by norm_num)
  have h1 : y / 100 % 10 < 10 := Nat.mod_lt _ (by norm_num)
  have h2 : y / 10 % 10 < 10 := Nat.mod_lt _ (by norm_num)
  have h3 : y % 10 < 10 := Nat.mod_lt _ (by norm_num)
  have hdata : (pad4 y).data = [digitChar (y / 1000 % 10), digitChar (y / 100 % 10),
      digitChar (y / 10 % 10), digitChar (y % 10)] := rfl
  rw [hdata]
  simp only [List.cons_append, List.nil_append, year4,
    digitChar_isDigit h0, digitChar_isDigit h1, digitChar_isDigit h2, digitChar_isDigit h3,
    Bool.and_self, if_true,
    digitVal_digitChar h0, digitVal_digitChar h1, digitVal_digitChar h2, digitVal_digitChar h3]
  congr 1
  congr 1
  omega

lemma monthTok_two {m : Nat} (h1 : 1 ≤ m) (h2 : m ≤ 12) (rest : List Char) :
    monthTok ((pad2 m).data ++ rest) = some (m, rest) := by
  interval_cases m <;> rfl

lemma monthTok_one {m : Nat} (h1 : 1 ≤ m) (h2 : m ≤ 9) (rest : List Char) :
    monthTok (digitChar m :: '-' :: rest) = some (m, '-' :: rest) := by
  interval_cases m <;> rfl

lemma dayTok_two {d : Nat} (h1 : 1 ≤ d) (h2 : d ≤ 31) :
    dayTok (pad2 d).data = some (d, []) := by
  interval_cases d <;> rfl

lemma dayTok_one {d : Nat} (h1 : 1 ≤ d) (h2 : d ≤ 9) :
    dayTok [digitChar d] = some (d, []) := by
  interval_cases d <;> rfl

lemma strptime_spec_render {y m d : Nat} (hy2 : y ≤ 9999)
    (hm1 : 1 ≤ m) (hm2 : m ≤ 12) (hd1 : 1 ≤ d) (hd2 : d ≤ 31)
    {ms ds : String} (hms : ms ∈ specRenderings m) (hds : ds ∈ specRenderings d) :
    strptimeYMD (pad4 y ++ "-" ++ ms ++ "-" ++ ds) = some (y, m, d) := by
  have hdata : (pad4 y ++ "-" ++ ms ++ "-" ++ ds).data
      = (pad4 y).data ++ ('-' :: (ms.data ++ ('-' :: ds.data))) := by
    simp [String.data_append]
  have hmonth : monthTok (ms.data ++ ('-' :: ds.data)) = some (m, '-' :: ds.data) := by
    rw [specRenderings] at hms
    by_cases hlt : m < 10
    · rw [if_pos hlt] at hms
      simp only [List.mem_cons, List.not_mem_nil, or_false] at hms
      rcases hms with rfl | rfl
      · exact monthTok_one hm1 (by omega) _
      · exact monthTok_two hm1 hm2 _
    · rw [if_neg hlt] at hms
      simp only [List.mem_cons, List.not_mem_nil, or_false] at hms
      rw [hms]
      exact monthTok_two hm1 hm2 _
  have hday : dayTok ds.data = some (d, []) := by
    rw [specRenderings] at hds
    by_cases hlt : d < 10
    · rw [if_pos hlt] at hds
      simp only [List.mem_cons, List.not_mem_nil, or_false] at hds
      rcases hds with rfl | rfl
      · exact dayTok_one hd1 (by omega)
      · exact dayTok_two hd1 hd2
    · rw [if_neg hlt] at hds
      simp only [List.mem_cons, List.not_mem_nil, or_false] at hds
      rw [hds]
      exact dayTok_two hd1 hd2
  simp [strptimeYMD, hdata, year4_pad4 hy2, expectDash, hmonth, hday]

/-! ## Date grammar completeness: successful parses are rendered dates -/

lemma stringExt {s t : String} (h : s.data = t.data) : s = t := by
  cases s
  cases t
  exact congrArg String.mk h

lemma pad2_mem_specRenderings (m : Nat) : pad2 m ∈ specRenderings m := by
  rw [specRenderings]
  split <;> simp

lemma digitStr1_mem_specRenderings {m : Nat} (h : m < 10) :
    digitStr1 m ∈ specRenderings m := by
  rw [specRenderings, if_pos h]
  simp

lemma expectDash_inv {cs rest : List Char} (h : expectDash cs = some rest) :
    cs = '-' :: rest := by
  match cs with
  | [] => simp [expectDash] at h
  | c :: t =>
    rw [expectDash] at h
    split_ifs at h with hc
    injection h with h
    rw [hc, h]

lemma year4_inv {cs rest : List Char} {y : Nat} (h : year4 cs = some (y, rest)) :
    y ≤ 9999 ∧ cs = (pad4 y).data ++ rest := by
  match cs with
  | [] => simp [year4] at h
  | [_] => simp [year4] at h
  | [_, _] => simp [year4] at h
  | [_, _, _] => simp [year4] at h
  | p :: q :: r :: w :: t =>
    rw [year4] at h
    split_ifs at h with hd
    · simp only [Option.some.injEq, Prod.mk.injEq] at h
      obtain ⟨hy, rfl⟩ := h
      simp only [Bool.and_eq_true] at hd
      obtain ⟨⟨⟨hp, hq⟩, hr⟩, hw⟩ := hd
      have vp := digitVal_lt_ten hp
      have vq := digitVal_lt_ten hq
      have vr := digitVal_lt_ten hr
      have vw := digitVal_lt_ten hw
      constructor
      · omega
      · have hdata : (pad4 y).data = [digitChar (y / 1000 % 10), digitChar (y / 100 % 10),
            digitChar (y / 10 % 10), digitChar (y % 10)] := rfl
        have e1 : y / 1000 % 10 = digitVal p := by omega
        have e2 : y / 100 % 10 = digitVal q := by omega
        have e3 : y / 10 % 10 = digitVal r := by omega
        have e4 : y % 10 = digitVal w := by omega
        rw [hdata, e1, e2, e3, e4, digitChar_digitVal hp, digitChar_digitVal hq,
          digitChar_digitVal hr, digitChar_digitVal hw]
        rfl

lemma month2_inv {c1 c2 : Char} {m : Nat} (h : month2 c1 c2 = some m) :
    1 ≤ m ∧ m ≤ 12 ∧ (pad2 m).data = [c1, c2] := by
  have t0 : ('0' : Char).toNat = 48 := rfl
  have t1 : ('1' : Char).toNat = 49 := rfl
  have t2 : ('2' : Char).toNat = 50 := rfl
  have t9 : ('9' : Char).toNat = 57 := rfl
  rw [month2] at h
  split_ifs at h with hA hB
  · simp only [Bool.and_eq_true, beq_iff_eq, decide_eq_true_eq] at hA
    obtain ⟨⟨rfl, hlo⟩, hhi⟩ := hA
    rw [char_le_iff, t0] at hlo
    rw [char_le_iff, t2] at hhi
    injection h with h
    have hdig : c2.isDigit = true := isDigit_iff.mpr (by omega)
    have hv := digitVal_lt_ten hdig
    have e1 : m / 10 % 10 = 1 := by rw [← h, digitVal]; omega
    have e2 : m % 10 = digitVal c2 := by rw [← h, digitVal]; omega
    refine ⟨by omega, by rw [← h, digitVal]; omega, ?_⟩
    rw [pad2.eq_1, e1, e2, digitChar_digitVal hdig]
    rfl
  · simp only [Bool.and_eq_true, beq_iff_eq, decide_eq_true_eq] at hB
    obtain ⟨⟨rfl, hlo⟩, hhi⟩ := hB
    rw [char_le_iff, t1] at hlo
    rw [char_le_iff, t9] at hhi
    injection h with h
    have hdig : c2.isDigit = true := isDigit_iff.mpr (by omega)
    have hv := digitVal_lt_ten hdig
    have e1 : m / 10 % 10 = 0 := by rw [← h, digitVal]; omega
    have e2 : m % 10 = digitVal c2 := by rw [← h, digitVal]; omega
    refine ⟨by rw [← h, digitVal]; omega, by rw [← h, digitVal]; omega, ?_⟩
    rw [pad2.eq_1, e1, e2, digitChar_digitVal hdig]
    rfl

lemma day2_inv {c1 c2 : Char} {d : Nat} (h : day2 c1 c2 = some d) :
    1 ≤ d ∧ d ≤ 31 ∧ (pad2 d).data = [c1, c2] := by
  have t0 : ('0' : Char).toNat = 48 := rfl
  have t1 : ('1' : Char).toNat = 49 := rfl
  have t3 : ('3' : Char).toNat = 51 := rfl
  have t9 : ('9' : Char).toNat = 57 := rfl
  rw [day2] at h
  split_ifs at h with hA hB hC
  · simp only [Bool.and_eq_true, beq_iff_eq, decide_eq_true_eq] at hA
    obtain ⟨⟨rfl, hlo⟩, hhi⟩ := hA
    rw [char_le_iff, t0] at hlo
    rw [char_le_iff, t1] at hhi
    injection h with h
    have hdig : c2.isDigit = true := isDigit_iff.mpr (by omega)
    have hv := digitVal_lt_ten hdig
    have e1 : d / 10 % 10 = 3 := by rw [← h, digitVal]; omega
    have e2 : d % 10 = digitVal c2 := by rw [← h, digitVal]; omega
    refine ⟨by omega, by rw [← h, digitVal]; omega, ?_⟩
    rw [pad2.eq_1, e1, e2, digitChar_digitVal hdig]
    rfl
  · simp only [Bool.and_eq_true, Bool.or_eq_true, beq_iff_eq] at hB
    obtain ⟨hc1, hdig2⟩ := hB
    injection h with h
    have hdig1 : c1.isDigit = true := by
      rcases hc1 with rfl | rfl <;> rfl
    have hv1 : 1 ≤ digitVal c1 ∧ digitVal c1 ≤ 2 := by
      rcases hc1 with rfl | rfl <;> exact ⟨by decide, by decide⟩
    have hv2 := digitVal_lt_ten hdig2
    have e1 : d / 10 % 10 = digitVal c1 := by rw [← h]; omega
    have e2 : d % 10 = digitVal c2 := by rw [← h]; omega
    refine ⟨by omega, by omega, ?_⟩
    rw [pad2.eq_1, e1, e2, digitChar_digitVal hdig1, digitChar_digitVal hdig2]
  · simp only [Bool.and_eq_true, beq_iff_eq, decide_eq_true_eq] at hC
    obtain ⟨⟨rfl, hlo⟩, hhi⟩ := hC
    rw [char_le_iff, t1] at hlo
    rw [char_le_iff, t9] at hhi
    injection h with h
    have hdig : c2.isDigit = true := isDigit_iff.mpr (by omega)
    have hv := digitVal_lt_ten hdig
    have e1 : d / 10 % 10 = 0 := by rw [← h, digitVal]; omega
    have e2 : d % 10 = digitVal c2 := by rw [← h, digitVal]; omega
    refine ⟨by rw [← h, digitVal]; omega, by rw [← h, digitVal]; omega, ?_⟩
    rw [pad2.eq_1, e1, e2, digitChar_digitVal hdig]
    rfl

lemma nzdigit_inv {c : Char} (h : ('1' ≤ c && c ≤ '9') = true) :
    c.isDigit = true ∧ 1 ≤ digitVal c ∧ digitVal c ≤ 9 := by
  have t1 : ('1' : Char).toNat = 49 := rfl
  have t9 : ('9' : Char).toNat = 57 := rfl
  simp only [Bool.and_eq_true, decide_eq_true_eq] at h
  obtain ⟨hlo, hhi⟩ := h
  rw [char_le_iff, t1] at hlo
  rw [char_le_iff, t9] at hhi
  exact ⟨isDigit_iff.mpr (by omega), by rw [digitVal]; omega, by rw [digitVal]; omega⟩

lemma monthTok_inv {cs rest : List Char} {m : Nat} (h : monthTok cs = some (m, rest)) :
    1 ≤ m ∧ m ≤ 12 ∧ ∃ ms ∈ specRenderings m, cs = ms.data ++ rest := by
  match cs with
  | [] => simp [monthTok] at h
  | [c1] =>
    rw [monthTok] at h
    split_ifs at h with hc
    simp only [Option.some.injEq, Prod.mk.injEq] at h
    obtain ⟨rfl, rfl⟩ := h
    obtain ⟨hdig, h1, h9⟩ := nzdigit_inv hc
    refine ⟨h1, by omega, digitStr1 (digitVal c1),
      digitStr1_mem_specRenderings (digitVal_lt_ten hdig), ?_⟩
    simp [digitStr1, digitChar_digitVal hdig]
  | c1 :: c2 :: t =>
    rw [monthTok] at h
    split_ifs at h with hdig2 hc
    · rw [Option.map_eq_some'] at h
      obtain ⟨m', hm2, heq⟩ := h
      simp only [Prod.mk.injEq] at heq
      obtain ⟨rfl, rfl⟩ := heq
      obtain ⟨h1, h12, hpad⟩ := month2_inv hm2
      refine ⟨h1, h12, pad2 m', pad2_mem_specRenderings m', ?_⟩
      rw [hpad]
      rfl
    · simp only [Option.some.injEq, Prod.mk.injEq] at h
      obtain ⟨rfl, rfl⟩ := h
      obtain ⟨hdig, h1, h9⟩ := nzdigit_inv hc
      refine ⟨h1, by omega, digitStr1 (digitVal c1),
        digitStr1_mem_specRenderings (digitVal_lt_ten hdig), ?_⟩
      simp [digitStr1, digitChar_digitVal hdig]

lemma dayTok_inv {cs rest : List Char} {d : Nat} (h : dayTok cs = some (d, rest)) :
    1 ≤ d ∧ d ≤ 31 ∧ ∃ ds ∈ specRenderings d, cs = ds.data ++ rest := by
  match cs with
  | [] => simp [dayTok] at h
  | [c1] =>
    rw [dayTok] at h
    split_ifs at h with hc
    simp only [Option.some.injEq, Prod.mk.injEq] at h
    obtain ⟨rfl, rfl⟩ := h
    obtain ⟨hdig, h1, h9⟩ := nzdigit_inv hc
    refine ⟨h1, by omega, digitStr1 (digitVal c1),
      digitStr1_mem_specRenderings (digitVal_lt_ten hdig), ?_⟩
    simp [digitStr1, digitChar_digitVal hdig]
  | c1 :: c2 :: t =>
    rw [dayTok] at h
    split_ifs at h with hdig2 hc
    · rw [Option.map_eq_some'] at h
      obtain ⟨d', hd2, heq⟩ := h
      simp only [Prod.mk.injEq] at heq
      obtain ⟨rfl, rfl⟩ := heq
      obtain ⟨h1, h31, hpad⟩ := day2_inv hd2
      refine ⟨h1, h31, pad2 d', pad2_mem_specRenderings d', ?_⟩
      rw [hpad]
      rfl
    · simp only [Option.some.injEq, Prod.mk.injEq] at h
      obtain ⟨rfl, rfl⟩ := h
      obtain ⟨hdig, h1, h9⟩ := nzdigit_inv hc
      refine ⟨h1, by omega, digitStr1 (digitVal c1),
        digitStr1_mem_specRenderings (digitVal_lt_ten hdig), ?_⟩
      simp [digitStr1, digitChar_digitVal hdig]

lemma strptimeYMD_inv {s : String} {y m d : Nat} (h : strptimeYMD s = some (y, m, d)) :
    y ≤ 9999 ∧ 1 ≤ m ∧ m ≤ 12 ∧ 1 ≤ d ∧ d ≤ 31 ∧
    ∃ ms ∈ specRenderings m, ∃ ds ∈ specRenderings d,
      s = pad4 y ++ "-" ++ ms ++ "-" ++ ds := by
  rw [strptimeYMD] at h
  simp only [Option.bind_eq_bind, Option.bind_eq_some] at h
  obtain ⟨⟨y', r1⟩, hy, r1', hdash1, ⟨m', r2⟩, hm, r2', hdash2, ⟨d', r3⟩, hd, hfin⟩ := h
  split_ifs at hfin with hr3
  simp only [Option.some.injEq, Prod.mk.injEq] at hfin
  obtain ⟨rfl, rfl, rfl⟩ := hfin
  subst hr3
  obtain ⟨hy99, hcs⟩ := year4_inv hy
  have hr1 := expectDash_inv hdash1
  obtain ⟨hm1, hm12, ms, hmsmem, hmseq⟩ := monthTok_inv hm
  have hr2 := expectDash_inv hdash2
  obtain ⟨hd1, hd31, ds, hdsmem, hdseq⟩ := dayTok_inv hd
  have hr1' : r1 = '-' :: r1' := hr1
  have hr2' : r2 = '-' :: r2' := hr2
  refine ⟨hy99, hm1, hm12, hd1, hd31, ms, hmsmem, ds, hdsmem, ?_⟩
  apply stringExt
  simp only [String.data_append]
  rw [hcs, hr1', hmseq, hr2', hdseq]
  simp

/-! ## Claim C1 -/

/-- C1 (amended): the Date Normalizer accepts exactly the strings
`Y-M-D` with a four-digit year and one- or two-digit month and day denoting a
valid calendar date with year 1-9999, and maps each to the zero-padded
`YYYY-MM-DDT00:00:00.000Z` of that date; every other string fails with an
`InvalidDate` error carrying the original input.  (The original claim
restricted the accepted set to the exact zero-padded `YYYY-MM-DD` form; the
counterexample `"2024-1-5"` shows the code also accepts unpadded month and
day, as Python's strptime `%m`/`%d` match one or two digits.) -/
theorem dateNormalizer_characterization (s : String) :
    (∀ y m d, specDateComponents s y m d →
      validate_and_convert_date s =
        .ok (pad4 y ++ "-" ++ pad2 m ++ "-" ++ pad2 d ++ "T00:00:00.000Z")) ∧
    (∀ t, validate_and_convert_date s = .ok t →
      ∃ y m d, specDateComponents s y m d ∧
        t = pad4 y ++ "-" ++ pad2 m ++ "-" ++ pad2 d ++ "T00:00:00.000Z") ∧
    (∀ e, validate_and_convert_date s = .error e → e = .invalidDate s) := by
  refine ⟨?_, ?_, ?_⟩
  · rintro y m d ⟨hy1, hy2, hm1, hm2, hd1, hd2, ms, hms, ds, hds, rfl⟩
    have hp := strptime_spec_render hy2 hm1 hm2 hd1 (le_trans hd2 (daysInMonth_le y m)) hms hds
    simp only [validate_and_convert_date, hp]
    rw [if_pos ⟨hy1, hd2⟩]
  · intro t ht
    rcases hp : strptimeYMD s with _ | ⟨y, m, d⟩ <;>
      simp only [validate_and_convert_date, hp] at ht
    · cases ht
    split_ifs at ht with hv
    obtain ⟨hy1, hdm⟩ := hv
    injection ht with ht
    obtain ⟨hy99, hm1, hm12, hd1, hd31, ms, hmsmem, ds, hdsmem, hseq⟩ := strptimeYMD_inv hp
    exact ⟨y, m, d, ⟨hy1, hy99, hm1, hm12, hd1, hdm, ms, hmsmem, ds, hdsmem, hseq⟩, ht.symm⟩
  · intro e he
    rcases hp : strptimeYMD s with _ | ⟨y, m, d⟩ <;>
      simp only [validate_and_convert_date, hp] at he
    · injection he with he
      exact he.symm
    · split_ifs at he
      injection he with he
      exact he.symm

/-- C1 witness: `"2024-01-15"` satisfies the spec-side grammar and the
characterization yields the expected normalized timestamp. -/
theorem dateNormalizer_characterization_witness :
    validate_and_convert_date "2024-01-15" = .ok "2024-01-15T00:00:00.000Z" :=
  (dateNormalizer_characterization "2024-01-15").1 2024 1 15
    ⟨by norm_num, by norm_num, by norm_num, by norm_num, by norm_num, by decide,
      "01", by decide, "15", by decide, by decide⟩

/-- C1 counterexample: `"2024-1-5"` is not in the exact `YYYY-MM-DD` form,
yet the Date Normalizer accepts it instead of failing with `InvalidDate`,
refuting the original claim's "for every string that does not parse as a
valid calendar date in that exact format ... it fails" half. -/
theorem dateNormalizer_exactFormat_counterexample :
    isExactYMD "2024-1-5" = false ∧
    validate_and_convert_date "2024-1-5" = .ok "2024-01-05T00:00:00.000Z" :=
  ⟨rfl, rfl⟩

/-! ## Claim C2 -/

/-- C2 (code bug): `search_news`'s docstring and the spec name the sort
argument `sortby`, but line 113 reads `kwargs.get("sort_by", "publishedAt")`.
A call `search_news("ai", sortby="bogus")` therefore does NOT raise the
sortby ValidationError: the bogus value is silently ignored, the default
`"publishedAt"` is sent, and the request is issued (second component `true`).
The membership check `{"publishedAt", "relevance"}` with default
`"publishedAt"` does exist, but only fires for the key `"sort_by"` (third
conjunct). -/
theorem search_news_sortby_kwarg_ignored :
    search_news "ai" "en" none [("sortby", "bogus")] (some "k")
      (fun _ => .response ⟨200, "{}", some (.obj [])⟩)
      = (.ok ⟨.num 0, []⟩, true) ∧
    search_news_build "ai" "en" none [("sortby", "bogus")] =
      .ok [("q", .s "ai"), ("lang", .s "en"), ("max", .n 10),
           ("in", .s "title,description"), ("sortby", .s "publishedAt")] ∧
    search_news_build "ai" "en" none [("sort_by", "bogus")] =
      .error (.validation "'sortby' must be 'publishedAt' or 'relevance'") := by
  refine ⟨?_, ?_, ?_⟩ <;> rfl

/-! ## Claim C7 -/

/-- C7: `search_news("climate change", language="fr",
start_date="2024-01-01")` assembles exactly the parameters
`q="climate change"`, `lang="fr"`, `max=10`, `in="title,description"`,
`sortby="publishedAt"`, `from="2024-01-01T00:00:00.000Z"`, with no `to` and
no `country` key. -/
theorem search_news_end_to_end_params :
    search_news_build "climate change" "fr" none [("start_date", "2024-01-01")] =
      .ok [("q", .s "climate change"), ("lang", .s "fr"), ("max", .n 10),
           ("in", .s "title,description"), ("sortby", .s "publishedAt"),
           ("from", .s "2024-01-01T00:00:00.000Z")] ∧
    assocGet [("q", PVal.s "climate change"), ("lang", PVal.s "fr"), ("max", PVal.n 10),
           ("in", PVal.s "title,description"), ("sortby", PVal.s "publishedAt"),
           ("from", PVal.s "2024-01-01T00:00:00.000Z")] "to" = none ∧
    assocGet [("q", PVal.s "climate change"), ("lang", PVal.s "fr"), ("max", PVal.n 10),
           ("in", PVal.s "title,description"), ("sortby", PVal.s "publishedAt"),
           ("from", PVal.s "2024-01-01T00:00:00.000Z")] "country" = none := by
  refine ⟨?_, ?_, ?_⟩ <;> rfl

/-! ## Claim C5 -/

/-- C5 counterexample: an HTTP 500 response whose body is the (non-JSON)
text `"garbage"` produces an `UpstreamError` carrying `"garbage"` — the raw
response text — not `"HTTP 500"`, refuting the claim's universal "a status
500 response whose body cannot be parsed as JSON yields message HTTP 500". -/
theorem gateway_unparsable_body_counterexample :
    make_gnews_request (some "k") "search" []
      (fun _ => .response ⟨500, "garbage", none⟩)
      = (.error (.upstream "garbage"), true) ∧
    Err.upstream "garbage" ≠ Err.upstream "HTTP 500" := by
  exact ⟨rfl, by decide⟩

/-! ## Claim C4 -/

/-- C4: with no credential configured (`GNEWS_KEY` unset or empty, both
falsy under `if not GNEWS_KEY`), the Request Gateway fails with
`MissingCredential` for every endpoint and parameter mapping without
consulting the transport (flag `false` = `client.get` never reached), and
both operations, on any argument set that passes their input validation,
fail the same way. -/
theorem missing_credential_before_network (key : Option String)
    (hkey : strTruthy key = false) :
    (∀ endpoint params (net : List (String × PVal) → TransportResult),
      make_gnews_request key endpoint params net = (.error .missingCredential, false)) ∧
    (∀ query language country kwargs p (net : List (String × PVal) → TransportResult),
      search_news_build query language country kwargs = .ok p →
      search_news query language country kwargs key net =
        (.error .missingCredential, false)) ∧
    (∀ category language country sd ed q kw p
        (net : List (String × PVal) → TransportResult),
      get_top_headlines_build category language country sd ed q kw = .ok p →
      get_top_headlines category language country sd ed q kw key net =
        (.error .missingCredential, false)) := by
  have hgate : ∀ endpoint params (net : List (String × PVal) → TransportResult),
      make_gnews_request key endpoint params net = (.error .missingCredential, false) := by
    intro endpoint params net
    rw [make_gnews_request, if_pos hkey]
  refine ⟨hgate, ?_, ?_⟩
  · intro query language country kwargs p net hp
    simp only [search_news, hp, hgate]
  · intro category language country sd ed q kw p net hp
    simp only [get_top_headlines, hp, hgate]

/-- C4 witness: with the key unset, a concrete valid `search_news` call, a
concrete valid `get_top_headlines` call, and a direct gateway call all fail
with `MissingCredential` without touching the network. -/
theorem missing_credential_before_network_witness :
    make_gnews_request none "search" [] (fun _ => .requestError "net touched")
      = (.error .missingCredential, false) ∧
    search_news "ai" "en" none [] none (fun _ => .requestError "net touched")
      = (.error .missingCredential, false) ∧
    get_top_headlines "general" "en" none none none none [] none
      (fun _ => .requestError "net touched")
      = (.error .missingCredential, false) :=
  ⟨(missing_credential_before_network none rfl).1 "search" [] _,
   (missing_credential_before_network none rfl).2.1 "ai" "en" none [] _ _ rfl,
   (missing_credential_before_network none rfl).2.2 "general" "en" none none none none [] _ _ rfl⟩

/-! ## Claim C5 -/

/-- C5 (amended): for a gateway call with a configured key whose transport
returns a non-200 response: if the parsed body is an object with a
non-empty `errors` list the resulting `UpstreamError` carries the
stringification of that list's first entry; if the body cannot be parsed as
JSON AND the raw response text is empty, the error message is
`"HTTP {status}"`.  (The original claim said every unparsable body yields
`"HTTP {status}"`; the counterexample shows a non-empty unparsable body
yields the raw text instead, per `response.text or f"HTTP {status}"`.) -/
theorem gateway_non200_error_message (key : Option String)
    (hkey : strTruthy key = true) (endpoint : String)
    (params : List (String × PVal)) (net : List (String × PVal) → TransportResult)
    (r : HttpResponse)
    (hnet : net (assocSet params "apikey" (.s (key.getD ""))) = .response r)
    (hstatus : r.status ≠ 200) :
    (∀ kvs v rest, r.json = some (.obj kvs) →
      getField kvs "errors" = some (.arr (v :: rest)) →
      make_gnews_request key endpoint params net = (.error (.upstream (pyStr v)), true)) ∧
    (r.json = none → r.body = "" →
      make_gnews_request key endpoint params net =
        (.error (.upstream ("HTTP " ++ toString r.status)), true)) := by
  have hbase : make_gnews_request key endpoint params net = (.error (statusError r), true) := by
    rw [make_gnews_request, if_neg (by rw [hkey]; decide)]
    simp only [hnet]
    rw [if_pos hstatus]
  constructor
  · intro kvs v rest hjson herr
    have hne : kvs.isEmpty = false := by
      cases kvs with
      | nil => simp [getField] at herr
      | cons a t => rfl
    have hany : (kvs.any (fun p => p.1 == "errors")) = true := by
      rw [getField] at herr
      rcases hf : kvs.find? (fun p => p.1 == "errors") with _ | q
      · rw [hf] at herr
        cases herr
      · have hpa := List.find?_some hf
        exact List.any_eq_true.mpr ⟨q, List.mem_of_find?_eq_some hf, hpa⟩
    rw [hbase]
    have hse : statusError r = .upstream (pyStr v) := by
      simp [statusError, hjson, pyTruthy, hne, pyInErrors, hany, pyIndexErrors, herr, pyIndex0]
    rw [hse]
  · intro hjson hbody
    rw [hbase]
    have hse : statusError r = .upstream ("HTTP " ++ toString r.status) := by
      simp [statusError, hjson, hbody]
    rw [hse]

/-- C5 witness: HTTP 403 with parsed body `{"errors": ["invalid api key"]}`
yields message `"invalid api key"`; HTTP 500 with an empty unparsable body
yields `"HTTP 500"`. -/
theorem gateway_non200_error_message_witness :
    make_gnews_request (some "k") "search" []
      (fun _ => .response ⟨403, "\x7b\"errors\": [\"invalid api key\"]\x7d",
        some (.obj [("errors", .arr [.str "invalid api key"])])⟩)
      = (.error (.upstream "invalid api key"), true) ∧
    make_gnews_request (some "k") "search" []
      (fun _ => .response ⟨500, "", none⟩)
      = (.error (.upstream "HTTP 500"), true) :=
  ⟨(gateway_non200_error_message (some "k") rfl "search" [] _
      ⟨403, "\x7b\"errors\": [\"invalid api key\"]\x7d",
        some (.obj [("errors", .arr [.str "invalid api key"])])⟩ rfl (by decide)).1
      [("errors", .arr [.str "invalid api key"])] (.str "invalid api key") [] rfl rfl,
   (gateway_non200_error_message (some "k") rfl "search" [] _
      ⟨500, "", none⟩ rfl (by decide)).2 rfl rfl⟩

/-! ## Claim C3 -/

/-- A build-level error propagates unchanged through `search_news` without
reaching the gateway. -/
lemma search_news_error_of_build {query language : String} {country : Option String}
    {kwargs : List (String × String)} {key : Option String}
    {net : List (String × PVal) → TransportResult} {e : Err}
    (h : search_news_build query language country kwargs = .error e) :
    search_news query language country kwargs key net = (.error e, false) := by
  simp only [search_news, h]

/-- C3 counterexample: with both a bad sort value (under the `"sort_by"` key
the code actually reads) and a malformed `start_date`, `search_news` raises
the date error, not the sortby `ValidationError` — the code converts dates
(lines 119-125) before validating `sortby` (lines 127-129). -/
theorem search_news_order_counterexample :
    search_news "ai" "en" none [("sort_by", "bogus"), ("start_date", "2024-13-01")]
      (some "k") (fun _ => .requestError "unreached")
      = (.error (.invalidDate "2024-13-01"), false) ∧
    Err.invalidDate "2024-13-01" ≠
      Err.validation "'sortby' must be 'publishedAt' or 'relevance'" :=
  ⟨by rfl, by decide⟩

/-- C3 (amended): `search_news` validation order as implemented:
empty/whitespace-only query first; then `start_date` conversion, then
`end_date` conversion (each propagating the Date Normalizer's failure);
then sort-field membership (on the `"sort_by"` kwarg); then language shape;
then country shape.  In particular a call with a bad sort field and a
malformed `start_date` fails with the date error.  (The original claim put
the sort check before the date conversion.) -/
theorem search_news_validation_order (query language : String) (country : Option String)
    (kwargs : List (String × String)) (key : Option String)
    (net : List (String × PVal) → TransportResult) :
    (pyStrip query = "" →
      search_news query language country kwargs key net =
        (.error (.validation "Search query 'query' is required and cannot be empty"), false)) ∧
    (∀ e, pyStrip query ≠ "" →
      optConvertDate (kwGet kwargs "start_date") = .error e →
      search_news query language country kwargs key net = (.error e, false)) ∧
    (∀ a e, pyStrip query ≠ "" →
      optConvertDate (kwGet kwargs "start_date") = .ok a →
      optConvertDate (kwGet kwargs "end_date") = .error e →
      search_news query language country kwargs key net = (.error e, false)) ∧
    (∀ a b, pyStrip query ≠ "" →
      optConvertDate (kwGet kwargs "start_date") = .ok a →
      optConvertDate (kwGet kwargs "end_date") = .ok b →
      ((kwGet kwargs "sort_by").getD "publishedAt" = "" ∨
        ((kwGet kwargs "sort_by").getD "publishedAt" ≠ "publishedAt" ∧
         (kwGet kwargs "sort_by").getD "publishedAt" ≠ "relevance")) →
      search_news query language country kwargs key net =
        (.error (.validation "'sortby' must be 'publishedAt' or 'relevance'"), false)) ∧
    (∀ a b, pyStrip query ≠ "" →
      optConvertDate (kwGet kwargs "start_date") = .ok a →
      optConvertDate (kwGet kwargs "end_date") = .ok b →
      ¬ ((kwGet kwargs "sort_by").getD "publishedAt" = "" ∨
        ((kwGet kwargs "sort_by").getD "publishedAt" ≠ "publishedAt" ∧
         (kwGet kwargs "sort_by").getD "publishedAt" ≠ "relevance")) →
      isTwoAlpha language = false →
      search_news query language country kwargs key net =
        (.error (.validation "'language' must be a 2-letter language code"), false)) ∧
    (∀ a b, pyStrip query ≠ "" →
      optConvertDate (kwGet kwargs "start_date") = .ok a →
      optConvertDate (kwGet kwargs "end_date") = .ok b →
      ¬ ((kwGet kwargs "sort_by").getD "publishedAt" = "" ∨
        ((kwGet kwargs "sort_by").getD "publishedAt" ≠ "publishedAt" ∧
         (kwGet kwargs "sort_by").getD "publishedAt" ≠ "relevance")) →
      isTwoAlpha language = true →
      strTruthy country = true → isTwoAlpha (country.getD "") = false →
      search_news query language country kwargs key net =
        (.error (.validation "'country' must be a 2-letter country code"), false)) := by
  refine ⟨?_, ?_, ?_, ?_, ?_, ?_⟩
  · intro hq
    exact search_news_error_of_build (by simp [search_news_build, hq])
  · intro e hq hsd
    exact search_news_error_of_build (by simp only [search_news_build, if_neg hq, hsd])
  · intro a e hq hsd hed
    exact search_news_error_of_build (by simp only [search_news_build, if_neg hq, hsd, hed])
  · intro a b hq hsd hed hsort
    exact search_news_error_of_build
      (by simp only [search_news_build, if_neg hq, hsd, hed, if_pos hsort])
  · intro a b hq hsd hed hsort hlang
    exact search_news_error_of_build
      (by simp only [search_news_build, if_neg hq, hsd, hed, if_neg hsort, hlang,
        Bool.not_false, if_true])
  · intro a b hq hsd hed hsort hlang hc1 hc2
    exact search_news_error_of_build
      (by simp only [search_news_build, if_neg hq, hsd, hed, if_neg hsort, hlang,
        Bool.not_true, Bool.false_eq_true, if_false, hc1, hc2, Bool.not_false,
        Bool.and_self, if_true])

/-- C3 witness: instantiating the second clause at a concrete call with a
bad sort value and a malformed start date yields the date error. -/
theorem search_news_validation_order_witness :
    search_news "news" "en" none [("sort_by", "zzz"), ("start_date", "bad-date")]
      (some "k") (fun _ => .requestError "unreached")
      = (.error (.invalidDate "bad-date"), false) :=
  (search_news_validation_order "news" "en" none
      [("sort_by", "zzz"), ("start_date", "bad-date")] (some "k")
      (fun _ => .requestError "unreached")).2.1
    (.invalidDate "bad-date") (by decide) (by rfl)

/-! ## Claim C6 -/

/-- Overwriting key `k` in the mapping leaves lookups of other keys alone. -/
lemma find?_map_set (t : List (String × PVal)) (k k' : String) (v : PVal)
    (hne : ¬ k = k') :
    List.find? (fun p => p.1 == k') (t.map (fun p => if p.1 == k then (k, v) else p)) =
      List.find? (fun p => p.1 == k') t := by
  induction t with
  | nil => rfl
  | cons a t ih =>
    rw [List.map_cons]
    by_cases hak : a.1 = k
    · have h1 : (if a.1 == k then (k, v) else a) = (k, v) := by simp [hak]
      rw [h1, List.find?_cons_of_neg _ (by simp [hne]),
        List.find?_cons_of_neg _ (by simp [hak, hne]), ih]
    · have h1 : (if a.1 == k then (k, v) else a) = a := by simp [hak]
      rw [h1]
      by_cases hak' : a.1 = k'
      · rw [List.find?_cons_of_pos _ (by simp [hak']),
          List.find?_cons_of_pos _ (by simp [hak'])]
      · rw [List.find?_cons_of_neg _ (by simp [hak']),
          List.find?_cons_of_neg _ (by simp [hak']), ih]

/-- Setting a key different from `k'` in an ordered mapping does not change
the value found under `k'`. -/
lemma assocGet_assocSet_ne (p : List (String × PVal)) (k k' : String) (v : PVal)
    (hne : k' ≠ k) : assocGet (assocSet p k v) k' = assocGet p k' := by
  rw [assocSet]
  split_ifs with hmem
  · rw [assocGet, assocGet, find?_map_set p k k' v (fun h => hne h.symm)]
  · rw [assocGet, assocGet, List.find?_append]
    cases hf : p.find? (fun q => q.1 == k') with
    | some q => simp [hf]
    | none =>
      have hkk : (k == k') = false := by
        simp only [beq_eq_false_iff_ne, ne_eq]
        exact fun h => hne h.symm
      simp only [hf, Option.none_or]
      simp [List.find?, hkk]

/-- C6: every parameter mapping that `search_news` or `get_top_headlines`
assembles carries `max = 10`, for all caller-supplied arguments including
arbitrary extra keyword arguments (a `max` keyword is never read); and the
gateway's `apikey` insertion preserves the entry, so the transmitted mapping
also carries `max = 10`. -/
theorem outgoing_max_always_ten :
    (∀ query language country kwargs p,
      search_news_build query language country kwargs = .ok p →
      assocGet p "max" = some (.n 10)) ∧
    (∀ category language country sd ed q kw p,
      get_top_headlines_build category language country sd ed q kw = .ok p →
      assocGet p "max" = some (.n 10)) ∧
    (∀ p k, assocGet p "max" = some (.n 10) →
      assocGet (assocSet p "apikey" (.s k)) "max" = some (.n 10)) := by
  refine ⟨?_, ?_, ?_⟩
  · intro query language country kwargs p hb
    simp only [search_news_build] at hb
    repeat' split at hb
    all_goals (try (cases hb))
    all_goals rfl
  · intro category language country sd ed q kw p hb
    simp only [get_top_headlines_build] at hb
    repeat' split at hb
    all_goals (try (cases hb))
    all_goals rfl
  · intro p k h
    rw [assocGet_assocSet_ne p "apikey" "max" (.s k) (by decide)]
    exact h

/-- C6 witness: a concrete `search_news` call attempting to override `max`
via the keyword arguments still sends `max = 10`, also after `apikey`
injection; same for a `get_top_headlines` call. -/
theorem outgoing_max_always_ten_witness :
    assocGet [("q", PVal.s "ai"), ("lang", PVal.s "en"), ("max", PVal.n 10),
      ("in", PVal.s "title,description"), ("sortby", PVal.s "publishedAt")] "max"
      = some (.n 10) ∧
    assocGet [("category", PVal.s "general"), ("lang", PVal.s "en"),
      ("max", PVal.n 10)] "max" = some (.n 10) ∧
    assocGet (assocSet [("q", PVal.s "ai"), ("lang", PVal.s "en"), ("max", PVal.n 10),
      ("in", PVal.s "title,description"), ("sortby", PVal.s "publishedAt")]
      "apikey" (.s "k")) "max" = some (.n 10) :=
  ⟨(outgoing_max_always_ten).1 "ai" "en" none [("max", "99")] _ rfl,
   (outgoing_max_always_ten).2.1 "general" "en" none none none none [("max", "99")] _ rfl,
   (outgoing_max_always_ten).2.2 _ "k" ((outgoing_max_always_ten).1 "ai" "en" none
      [("max", "99")] _ rfl)⟩

/-! ## Claim C8 -/

/-- C8: each normalized article has exactly the fixed field list — `title`,
`description`, `content`, `url`, `image`, `publishedAt` (plus `language`
from the upstream `lang` tag in the headlines variant) and a `source` object
with `name` and `url` — where every field is the upstream value if present
and `null` otherwise (`getD … = Json.null` when the key is absent), and
`source.name`/`source.url` are `null` when the upstream `source` object is
absent; and the envelope's article list is exactly the articles list mapped
through this normalization. -/
theorem article_normalization (a : List (String × Json)) :
    (getField a "source" = none →
      search_normalize_article (.obj a) = .ok (.obj
        [("title", getD a "title"), ("description", getD a "description"),
         ("content", getD a "content"), ("url", getD a "url"),
         ("image", getD a "image"), ("publishedAt", getD a "publishedAt"),
         ("source", .obj [("name", Json.null), ("url", Json.null)])]) ∧
      headlines_normalize_article (.obj a) = .ok (.obj
        [("title", getD a "title"), ("description", getD a "description"),
         ("content", getD a "content"), ("url", getD a "url"),
         ("image", getD a "image"), ("publishedAt", getD a "publishedAt"),
         ("language", getD a "lang"),
         ("source", .obj [("name", Json.null), ("url", Json.null)])])) ∧
    (∀ skvs, getField a "source" = some (.obj skvs) →
      search_normalize_article (.obj a) = .ok (.obj
        [("title", getD a "title"), ("description", getD a "description"),
         ("content", getD a "content"), ("url", getD a "url"),
         ("image", getD a "image"), ("publishedAt", getD a "publishedAt"),
         ("source", .obj [("name", getD skvs "name"), ("url", getD skvs "url")])]) ∧
      headlines_normalize_article (.obj a) = .ok (.obj
        [("title", getD a "title"), ("description", getD a "description"),
         ("content", getD a "content"), ("url", getD a "url"),
         ("image", getD a "image"), ("publishedAt", getD a "publishedAt"),
         ("language", getD a "lang"),
         ("source", .obj [("name", getD skvs "name"), ("url", getD skvs "url")])])) ∧
    (∀ rkvs l, getField rkvs "articles" = some (.arr l) →
      Except.map Envelope.articles
          (post_process search_normalize_article (some (.obj rkvs)))
        = l.mapM search_normalize_article ∧
      Except.map Envelope.articles
          (post_process headlines_normalize_article (some (.obj rkvs)))
        = l.mapM headlines_normalize_article) := by
  refine ⟨?_, ?_, ?_⟩
  · intro h
    refine ⟨?_, ?_⟩ <;>
      (simp only [search_normalize_article, headlines_normalize_article,
        normalizeSourceObj, h]; rfl)
  · intro skvs h
    refine ⟨?_, ?_⟩ <;>
      (simp only [search_normalize_article, headlines_normalize_article,
        normalizeSourceObj, h]; rfl)
  · intro rkvs l h
    have key : ∀ normalize : Json → Except Err Json,
        Except.map Envelope.articles (post_process normalize (some (.obj rkvs)))
          = l.mapM normalize := by
      intro normalize
      simp only [post_process, h, Option.getD_some, pyIterate]
      cases hm : l.mapM normalize with
      | error e => rfl
      | ok arts => rfl
    exact ⟨key _, key _⟩

/-- C8 witness: a concrete article with an absent `description` and an
absent `source` object normalizes to the full fixed-shape record with
`null`s in those places. -/
theorem article_normalization_witness :
    search_normalize_article (.obj [("title", .str "t"), ("url", .str "u")])
      = .ok (.obj [("title", .str "t"), ("description", Json.null),
          ("content", Json.null), ("url", .str "u"), ("image", Json.null),
          ("publishedAt", Json.null),
          ("source", .obj [("name", Json.null), ("url", Json.null)])]) ∧
    headlines_normalize_article (.obj [("title", .str "t"), ("lang", .str "en")])
      = .ok (.obj [("title", .str "t"), ("description", Json.null),
          ("content", Json.null), ("url", Json.null), ("image", Json.null),
          ("publishedAt", Json.null), ("language", .str "en"),
          ("source", .obj [("name", Json.null), ("url", Json.null)])]) :=
  ⟨((article_normalization [("title", .str "t"), ("url", .str "u")]).1 rfl).1,
   ((article_normalization [("title", .str "t"), ("lang", .str "en")]).1 rfl).2⟩

/-! ## Claim C9 -/

/-- The envelope's `total_articles` is the body's `totalArticles` when
present, else the length of the normalized article list. -/
lemma post_process_total (normalize : Json → Except Err Json)
    (rkvs : List (String × Json)) (env : Envelope)
    (h : post_process normalize (some (.obj rkvs)) = .ok env) :
    (∃ v, getField rkvs "totalArticles" = some v ∧ env.total_articles = v) ∨
    (getField rkvs "totalArticles" = none ∧
      env.total_articles = .num env.articles.length) := by
  rw [post_process] at h
  cases hit : pyIterate ((getField rkvs "articles").getD (.arr [])) with
  | error e =>
    simp only [hit] at h
    cases h
  | ok raw =>
    simp only [hit] at h
    cases hm : raw.mapM normalize with
    | error e =>
      simp only [hm] at h
      cases h
    | ok arts =>
      simp only [hm] at h
      injection h with h
      subst h
      cases hta : getField rkvs "totalArticles" with
      | some v => exact Or.inl ⟨v, rfl, by simp [hta]⟩
      | none => exact Or.inr ⟨rfl, by simp [hta]⟩

/-- C9: for a successful upstream body (an object), `total_articles` equals
the body's `totalArticles` value when that key is present, else the length
of the normalized article list, in both operations; and when the body lacks
both `articles` and `totalArticles`, the result is `total_articles = 0` with
an empty article list. -/
theorem total_articles_rule (rkvs : List (String × Json)) :
    (∀ env, post_process search_normalize_article (some (.obj rkvs)) = .ok env →
      (∃ v, getField rkvs "totalArticles" = some v ∧ env.total_articles = v) ∨
      (getField rkvs "totalArticles" = none ∧
        env.total_articles = .num env.articles.length)) ∧
    (∀ env, post_process headlines_normalize_article (some (.obj rkvs)) = .ok env →
      (∃ v, getField rkvs "totalArticles" = some v ∧ env.total_articles = v) ∨
      (getField rkvs "totalArticles" = none ∧
        env.total_articles = .num env.articles.length)) ∧
    (getField rkvs "articles" = none → getField rkvs "totalArticles" = none →
      post_process search_normalize_article (some (.obj rkvs)) = .ok ⟨.num 0, []⟩ ∧
      post_process headlines_normalize_article (some (.obj rkvs)) = .ok ⟨.num 0, []⟩) := by
  refine ⟨fun env h => post_process_total _ rkvs env h,
    fun env h => post_process_total _ rkvs env h, ?_⟩
  intro hart htot
  constructor <;>
    (simp only [post_process, hart, htot, Option.getD_none, pyIterate]; rfl)

/-- C9 witness: a body carrying `totalArticles = 250` with one article
yields `total_articles = 250`; instantiating the rule at that body agrees. -/
theorem total_articles_rule_witness :
    post_process search_normalize_article
      (some (.obj [("totalArticles", .num 250), ("articles", .arr [.obj []])]))
      = .ok ⟨.num 250, [.obj [("title", Json.null), ("description", Json.null),
          ("content", Json.null), ("url", Json.null), ("image", Json.null),
          ("publishedAt", Json.null),
          ("source", .obj [("name", Json.null), ("url", Json.null)])]]⟩ ∧
    ((∃ v, getField [("totalArticles", Json.num 250), ("articles", Json.arr [Json.obj []])]
        "totalArticles" = some v ∧ (Json.num 250) = v) ∨
      (getField [("totalArticles", Json.num 250), ("articles", Json.arr [Json.obj []])]
        "totalArticles" = none ∧ (Json.num 250) = Json.num 1)) :=
  ⟨by rfl,
   (total_articles_rule [("totalArticles", .num 250), ("articles", .arr [.obj []])]).1
     ⟨.num 250, [.obj [("title", Json.null), ("description", Json.null),
        ("content", Json.null), ("url", Json.null), ("image", Json.null),
        ("publishedAt", Json.null),
        ("source", .obj [("name", Json.null), ("url", Json.null)])]]⟩ (by rfl)⟩

/-! ## Claim C10 -/

/-- C10: in both operations, `country = ""` behaves exactly as an absent
country: the falsy guard `if country and (...)` skips the 2-letter check,
the build result is identical to the `country = None` build, and the
resulting parameters carry no `country` key. -/
theorem empty_country_behaves_as_absent (query language category : String)
    (kwargs kw : List (String × String)) (sd ed q : Option String) :
    search_news_build query language (some "") kwargs =
      search_news_build query language none kwargs ∧
    (∀ p, search_news_build query language (some "") kwargs = .ok p →
      assocGet p "country" = none) ∧
    get_top_headlines_build category language (some "") sd ed q kw =
      get_top_headlines_build category language none sd ed q kw ∧
    (∀ p, get_top_headlines_build category language (some "") sd ed q kw = .ok p →
      assocGet p "country" = none) := by
  have hs : strTruthy (some "") = false := rfl
  have hn : strTruthy none = false := rfl
  refine ⟨?_, ?_, ?_, ?_⟩
  · simp [search_news_build, hs, hn]
  · intro p hb
    simp only [search_news_build, hs, Bool.false_and, Bool.false_eq_true, if_false] at hb
    repeat' split at hb
    all_goals (try (cases hb))
    all_goals rfl
  · simp [get_top_headlines_build, hs, hn]
  · intro p hb
    simp only [get_top_headlines_build, hs, Bool.false_and, Bool.false_eq_true,
      if_false] at hb
    repeat' split at hb
    all_goals (try (cases hb))
    all_goals rfl

/-- C10 witness: concrete calls with `country = ""` build the same
parameters as with `country` absent, and those parameters have no `country`
key. -/
theorem empty_country_behaves_as_absent_witness :
    search_news_build "ai" "en" (some "") [] = search_news_build "ai" "en" none [] ∧
    assocGet [("q", PVal.s "ai"), ("lang", PVal.s "en"), ("max", PVal.n 10),
      ("in", PVal.s "title,description"), ("sortby", PVal.s "publishedAt")]
      "country" = none ∧
    get_top_headlines_build "general" "en" (some "") none none none [] =
      get_top_headlines_build "general" "en" none none none none [] :=
  ⟨(empty_country_behaves_as_absent "ai" "en" "general" [] [] none none none).1,
   (empty_country_behaves_as_absent "ai" "en" "general" [] [] none none none).2.1 _ rfl,
   (empty_country_behaves_as_absent "ai" "en" "general" [] [] none none none).2.2.1⟩
